import Mathlib

/-!
Verification development for the interval-walking timer app.

The repository contains three revisions of the timer engine:
* `App.tsx` — a drift-compensated `setTimeout` loop (`tick`), pause/resume
  bookkeeping through `pausedTime`/`pauseStartTime`, interval notifications,
  and derived per-interval display values.  Embedded in namespace `AppMain`.
* the MMKV refactor (unnamed part 001) — authoritative `accumulatedMs` /
  `startMonoMs` state persisted through `react-native-mmkv`, with
  `startTimer` / `stopTimer` / `continueTraining` / `endTraining`.
  Embedded in namespace `AppMmkv`.
* `TimerDisplay` (unnamed part 002) — the Reanimated render-sync layer:
  shared values `baseElapsedSV`, `startMonoSV`, `runningSV`, `durationSV`,
  `renderElapsedSV`, a per-frame callback and a prop-sync effect.
  Embedded in namespace `TimerDisplay`.

JavaScript numeric conventions used throughout: clock readings are integer
milliseconds, `Math.floor (a / b)` for a positive literal `b` is `Int.fdiv`,
and the JavaScript remainder operator (sign of the dividend) is `Int.tmod`.
-/

namespace AppMain

/-- React component state of `App.tsx` (the `useState` hooks plus the
`timeoutRef`/`lastTickRef` refs).  `customDuration` holds the result of
`parseInt(customDuration)`: `none` models a non-numeric string. -/
structure AppState where
  isTimerActive : Bool
  isPausePrompt : Bool
  customDuration : Option Int
  trainingDuration : Int
  timeRemaining : Int
  startTime : Option Int
  pausedTime : Int
  pauseStartTime : Option Int
  timeoutPending : Bool
  lastTick : Option Int
  showConfetti : Bool
deriving DecidableEq, Repr

/-- Initial hook values of `App.tsx`: duration preset 30 minutes,
`timeRemaining = 30 * 60`, timer inactive, all refs null. -/
def initialState : AppState :=
  { isTimerActive := false
    isPausePrompt := false
    customDuration := some 30
    trainingDuration := 30 * 60
    timeRemaining := 30 * 60
    startTime := none
    pausedTime := 0
    pauseStartTime := none
    timeoutPending := false
    lastTick := none
    showConfetti := false }

/-- Outcome of `startTimer` in `App.tsx`: either the validation alert fires
and the function returns early, or the session starts. -/
inductive StartResult where
  | invalidDuration : StartResult
  | started : StartResult
deriving DecidableEq, Repr

/-- `startTimer` from `App.tsx`: parses `customDuration`; if the result is
NaN, below 5 or above 120 it shows the alert and returns with no state
change; otherwise it initialises the session at clock reading `now`. -/
def startTimer (st : AppState) (now : Int) : AppState × StartResult :=
  match st.customDuration with
  | none => (st, StartResult.invalidDuration)
  | some duration =>
      if duration < 5 ∨ 120 < duration then (st, StartResult.invalidDuration)
      else
        ({ st with
            trainingDuration := duration * 60
            timeRemaining := duration * 60
            startTime := some now
            pausedTime := 0
            pauseStartTime := none
            timeoutPending := false
            isTimerActive := true }, StartResult.started)

/-- `stopTimer` (the pause action) from `App.tsx`: deactivates the timer,
shows the pause prompt, stamps `pauseStartTime` with the current clock
reading and clears the pending timeout. -/
def stopTimer (st : AppState) (now : Int) : AppState :=
  { st with
      isTimerActive := false
      isPausePrompt := true
      pauseStartTime := some now
      timeoutPending := false }

/-- `continueTraining` (the resume action) from `App.tsx`: hides the pause
prompt, folds the paused span into `pausedTime` when `pauseStartTime` is
set, clears it, and reactivates the timer. -/
def continueTraining (st : AppState) (now : Int) : AppState :=
  match st.pauseStartTime with
  | some p =>
      { st with
          isPausePrompt := false
          pausedTime := st.pausedTime + (now - p)
          pauseStartTime := none
          isTimerActive := true }
  | none =>
      { st with
          isPausePrompt := false
          isTimerActive := true }

/-- `handleTimerComplete` from `App.tsx`: deactivates the timer, clears the
pending timeout, resets all timing state, schedules exactly one completion
notification (the returned count) and shows the confetti. -/
def handleTimerComplete (st : AppState) : AppState × Nat :=
  ({ st with
      isTimerActive := false
      timeoutPending := false
      startTime := none
      pausedTime := 0
      pauseStartTime := none
      timeRemaining := st.trainingDuration
      lastTick := none
      showConfetti := true }, 1)

/-- `setPresetDuration` from `App.tsx`: updates `customDuration` and
`trainingDuration`; `timeRemaining` is left untouched. -/
def setPresetDuration (st : AppState) (minutes : Int) : AppState :=
  { st with
      customDuration := some minutes
      trainingDuration := minutes * 60 }

/-- The interval-notification decisions of one `tick` invocation in
`App.tsx`: the list of `totalElapsedSeconds` values passed to
`sendIntervalNotification` during that tick (in source order).  The
completion branch (`newTimeRemaining === 0`) returns before the
notification check, and a notification requires `totalElapsedSeconds` to be
positive, an exact multiple of 180, and the reading 100 ms earlier to lie
in a strictly earlier 180-second interval. -/
def tickNotifications (trainingDuration startTime pausedTime now : Int) :
    List Int :=
  let totalElapsedMs := now - startTime - pausedTime
  let totalElapsedSeconds := Int.fdiv totalElapsedMs 1000
  let newTimeRemaining := max 0 (trainingDuration - totalElapsedSeconds)
  if newTimeRemaining = 0 then []
  else if 0 < totalElapsedSeconds ∧ Int.tmod totalElapsedSeconds 180 = 0 then
    let currentInterval := Int.fdiv totalElapsedSeconds 180
    let previousElapsedSeconds := Int.fdiv (totalElapsedMs - 100) 1000
    let previousInterval := Int.fdiv previousElapsedSeconds 180
    if previousInterval < currentInterval then [totalElapsedSeconds] else []
  else []

/-- The target instant for the next whole-second tick computed in `tick`:
`startTime + pausedTime + (totalElapsedSeconds + 1) * 1000`, anchored to
the original start instant. -/
def tickTargetTime (startTime pausedTime now : Int) : Int :=
  let totalElapsedMs := now - startTime - pausedTime
  let totalElapsedSeconds := Int.fdiv totalElapsedMs 1000
  let nextSecond := (totalElapsedSeconds + 1) * 1000
  startTime + pausedTime + nextSecond

/-- The delay passed to `setTimeout` at the end of `tick`:
`targetTime - now`, replaced by 1 when negative. -/
def tickDelay (startTime pausedTime now : Int) : Int :=
  let delay := tickTargetTime startTime pausedTime now - now
  if delay < 0 then 1 else delay

/-- Derived value `elapsedSeconds = trainingDuration - timeRemaining` from
`App.tsx`. -/
def elapsedSeconds (trainingDuration timeRemaining : Int) : Int :=
  trainingDuration - timeRemaining

/-- Derived value `currentIntervalRemaining` from `App.tsx`: 0 when
`timeRemaining` is 0, otherwise 180 on an exact 180-second multiple of
`elapsedSeconds`, otherwise `180 - elapsedSeconds % 180` (JavaScript
remainder). -/
def currentIntervalRemaining (trainingDuration timeRemaining : Int) : Int :=
  if timeRemaining = 0 then 0
  else if Int.tmod (elapsedSeconds trainingDuration timeRemaining) 180 = 0
    then 180
  else 180 - Int.tmod (elapsedSeconds trainingDuration timeRemaining) 180

/-- Derived value `currentIntervalIndex = Math.floor(elapsedSeconds / 180) + 1`
from `App.tsx`. -/
def currentIntervalIndex (trainingDuration timeRemaining : Int) : Int :=
  Int.fdiv (elapsedSeconds trainingDuration timeRemaining) 180 + 1

end AppMain

/-- The boundary-crossing contract stated by the specification, written
from the claim wording (not from the code): every boundary value
`k * 180` with `k * 180 ≤ currentElapsedSeconds` and
`k * 180 > lastNotifiedBoundary`, listed in ascending order of `k`. -/
def specCrossedBoundaries (lastNotifiedBoundary currentElapsedSeconds : Int) :
    List Int :=
  ((List.range (Int.fdiv currentElapsedSeconds 180).toNat).map
    (fun i => ((i : Int) + 1) * 180)).filter
    (fun b => lastNotifiedBoundary < b)

namespace AppMmkv

/-- React component state of the MMKV revision (unnamed part 001):
`accumulatedMs` and `startMonoMs` are MMKV-backed numbers and may be
absent (`none`). -/
structure MState where
  isTimerActive : Bool
  isRunning : Bool
  accumulatedMs : Option Int
  startMonoMs : Option Int
  trainingDuration : Int
  durationMs : Int
deriving DecidableEq, Repr

/-- `startTimer` from the MMKV revision: activates the session, zeroes
`accumulatedMs`, fixes `durationMs`, anchors `startMonoMs` at `now` and
sets the running flag. -/
def startTimer (st : MState) (now : Int) : MState :=
  { st with
      isTimerActive := true
      accumulatedMs := some 0
      durationMs := st.trainingDuration * 1000
      startMonoMs := some now
      isRunning := true }

/-- `stopTimer` from the MMKV revision: clears the running flag and, when
`startMonoMs` is set, folds the open segment into `accumulatedMs`
(an absent previous value is read as 0 via the `?? 0` fallback) and clears
the anchor. -/
def stopTimer (st : MState) (now : Int) : MState :=
  match st.startMonoMs with
  | some s =>
      { st with
          isRunning := false
          accumulatedMs := some (st.accumulatedMs.getD 0 + (now - s))
          startMonoMs := none }
  | none => { st with isRunning := false }

/-- `continueTraining` from the MMKV revision: re-anchors `startMonoMs` at
`now` and sets the running flag; `accumulatedMs` is untouched. -/
def continueTraining (st : MState) (now : Int) : MState :=
  { st with
      startMonoMs := some now
      isRunning := true }

/-- `endTraining` from the MMKV revision: deactivates everything and resets
the persisted values. -/
def endTraining (st : MState) : MState :=
  { st with
      isTimerActive := false
      isRunning := false
      accumulatedMs := some 0
      startMonoMs := none }

/-- Runs an alternating list of (pause instant, resume instant) cycles from
a given state using the source transition functions. -/
def runCycles (st : MState) : List (Int × Int) → MState
  | [] => st
  | (p, r) :: rest => runCycles (continueTraining (stopTimer st p) r) rest

/-- A full session trace observed in a paused state: start at `t0`, then
the given pause/resume cycles, then a final pause at `tf`. -/
def pausedRun (st : MState) (t0 : Int) (cycles : List (Int × Int))
    (tf : Int) : MState :=
  stopTimer (runCycles (startTimer st t0) cycles) tf

/-- The specification-side sum of completed running-segment durations of
such a trace: each segment runs from its start/resume instant to the next
pause instant. -/
def segSum : Int → List (Int × Int) → Int → Int
  | t0, [], tf => tf - t0
  | t0, (p, r) :: rest, tf => (p - t0) + segSum r rest tf

/-- The two MMKV-backed keys of the persistent store. -/
structure Store where
  accumulatedMs : Option Int
  startMonoMs : Option Int
deriving DecidableEq, Repr

/-- `storage.clearAll()`: empties the store. -/
def clearAll (_ : Store) : Store := { accumulatedMs := none, startMonoMs := none }

/-- The app-start setup of the MMKV revision: the mount effect calls
`storage.clearAll()`, the `useState` hooks start with the timer inactive
and not running, and the `useMMKVNumber` hooks thereafter reflect the
cleared store. -/
def appStartup (store : Store) : Store × MState :=
  let cleared := clearAll store
  (cleared,
    { isTimerActive := false
      isRunning := false
      accumulatedMs := cleared.accumulatedMs
      startMonoMs := cleared.startMonoMs
      trainingDuration := 30 * 60
      durationMs := 30 * 60 * 1000 })

end AppMmkv

namespace TimerDisplay

/-- The Reanimated shared values of `TimerDisplay` (unnamed part 002). -/
structure TDState where
  baseElapsedSV : Int
  startMonoSV : Int
  runningSV : Bool
  durationSV : Int
  renderElapsedSV : Int
deriving DecidableEq, Repr

/-- One invocation of the `useFrameCallback` worklet at monotonic reading
`nowMono`.  Returns the updated shared values together with a flag that is
true exactly when `scheduleOnRN(onDone)` was called on this frame (the
completion signal marshalled back to the React Native thread). -/
def frameCallback (td : TDState) (nowMono : Int) : TDState × Bool :=
  if td.runningSV = false then (td, false)
  else
    let elapsed := td.baseElapsedSV + (nowMono - td.startMonoSV)
    if td.durationSV ≤ elapsed then
      ({ td with
          baseElapsedSV := td.durationSV
          renderElapsedSV := td.durationSV
          runningSV := false }, true)
    else ({ td with renderElapsedSV := elapsed }, false)

/-- Iterates the frame callback over a list of monotonic frame instants,
keeping only the shared-value state. -/
def framesRun (td : TDState) : List Int → TDState
  | [] => td
  | n :: ns => framesRun (frameCallback td n).1 ns

/-- Counts how many completion signals a list of frames emits. -/
def signalCount (td : TDState) : List Int → Nat
  | [] => 0
  | n :: ns =>
      (if (frameCallback td n).2 then 1 else 0) +
        signalCount (frameCallback td n).1 ns

/-- The prop-sync effect of `TimerDisplay`: mirrors `isRunning` into
`runningSV`; when (re)starting with an anchor available it resets the
anchor, base and render value, otherwise it freezes base and render value
at `accumulatedMs`. -/
def syncEffect (td : TDState) (isRunning : Bool) (startMonoMs : Option Int)
    (accumulatedMs : Int) : TDState :=
  let td1 := { td with runningSV := isRunning }
  match isRunning, startMonoMs with
  | true, some m =>
      { td1 with
          startMonoSV := m
          baseElapsedSV := accumulatedMs
          renderElapsedSV := accumulatedMs }
  | _, _ =>
      { td1 with
          baseElapsedSV := accumulatedMs
          renderElapsedSV := accumulatedMs }

end TimerDisplay

/-- Helper: a frame whose shared values are not running changes nothing. -/
theorem frameCallback_not_running (td : TimerDisplay.TDState) (n : Int)
    (h : td.runningSV = false) : TimerDisplay.frameCallback td n = (td, false) := by
  simp [TimerDisplay.frameCallback, h]

/-- Helper: once the running flag is off, no sequence of frames emits any
completion signal. -/
theorem signalCount_of_not_running (td : TimerDisplay.TDState)
    (h : td.runningSV = false) :
    ∀ frames : List Int, TimerDisplay.signalCount td frames = 0 := by
  intro frames
  induction frames with
  | nil => rfl
  | cons n ns ih =>
      simp [TimerDisplay.signalCount, frameCallback_not_running td n h, ih]

/-- Helper: once the running flag is off, iterating frames leaves the
shared values untouched. -/
theorem framesRun_of_not_running (td : TimerDisplay.TDState)
    (h : td.runningSV = false) :
    ∀ frames : List Int, TimerDisplay.framesRun td frames = td := by
  intro frames
  induction frames with
  | nil => rfl
  | cons n ns ih =>
      simp [TimerDisplay.framesRun, frameCallback_not_running td n h, ih]

/-- Helper for C6: running the alternating cycles from a running state with
accumulated value `a` and anchor `t` and then pausing at `tf` accumulates
exactly `a` plus the sum of the segment durations. -/
theorem runCycles_accumulated (cycles : List (Int × Int)) :
    ∀ (st : AppMmkv.MState) (a t tf : Int),
      st.accumulatedMs = some a → st.startMonoMs = some t →
      (AppMmkv.stopTimer (AppMmkv.runCycles st cycles) tf).accumulatedMs
        = some (a + AppMmkv.segSum t cycles tf) := by
  induction cycles with
  | nil =>
      intro st a t tf ha ht
      simp [AppMmkv.runCycles, AppMmkv.stopTimer, AppMmkv.segSum, ha, ht]
  | cons c rest ih =>
      intro st a t tf ha ht
      obtain ⟨p, r⟩ := c
      have hstep :
          AppMmkv.continueTraining (AppMmkv.stopTimer st p) r
            = { st with
                  isRunning := true
                  accumulatedMs := some (a + (p - t))
                  startMonoMs := some r } := by
        simp [AppMmkv.stopTimer, AppMmkv.continueTraining, ha, ht]
      have := ih { st with
                    isRunning := true
                    accumulatedMs := some (a + (p - t))
                    startMonoMs := some r }
                 (a + (p - t)) r tf rfl rfl
      calc (AppMmkv.stopTimer
              (AppMmkv.runCycles (AppMmkv.continueTraining (AppMmkv.stopTimer st p) r) rest)
              tf).accumulatedMs
        = some ((a + (p - t)) + AppMmkv.segSum r rest tf) := by rw [hstep]; exact this
        _ = some (a + AppMmkv.segSum t ((p, r) :: rest) tf) := by
              simp [AppMmkv.segSum]; ring

/-- Claim C1 (counterexample): on a tick delayed 400 seconds in a
30-minute session (elapsed jumps from 100 s to 500 s, no boundary notified
yet), the specification requires the two skipped boundary notifications
(for boundaries 180 and 360), but the tick of `App.tsx` emits none, because
500 is not an exact multiple of 180.  The claim as stated is false at this
input. -/
theorem c1_catchup_counterexample :
    specCrossedBoundaries 0 500 = [180, 360] ∧
    AppMain.tickNotifications 1800 0 0 500000 = [] ∧
    AppMain.tickNotifications 1800 0 0 500000 ≠ specCrossedBoundaries 0 500 := by
  refine ⟨by decide, by decide, by decide⟩

/-- Claim C1 (amended): a single tick of `App.tsx` emits at most one
interval notification, and any notification it emits is for the current
whole-second elapsed value, which must itself be a positive exact multiple
of 180 seconds.  Boundaries skipped over by a delayed tick that lands off
an exact 180-second multiple are silently dropped, not caught up. -/
theorem c1_catchup_amended (d s p n : Int) :
    (AppMain.tickNotifications d s p n).length ≤ 1 ∧
    ∀ e, e ∈ AppMain.tickNotifications d s p n →
      e = Int.fdiv (n - s - p) 1000 ∧ 0 < e ∧ Int.tmod e 180 = 0 := by
  constructor
  · simp only [AppMain.tickNotifications]
    split_ifs <;> simp
  · intro e he
    simp only [AppMain.tickNotifications] at he
    split_ifs at he with h1 h2 h3
    · simp at he
    · simp at he
      subst he
      exact ⟨rfl, h2.1, h2.2⟩
    · simp at he
    · simp at he

/-- Claim C1 (witness): at a tick landing 50 ms after the first boundary of
a 30-minute session, a notification for elapsed second 180 is emitted, and
the amended characterisation holds for it. -/
theorem c1_catchup_amended_witness :
    (180 : Int) ∈ AppMain.tickNotifications 1800 0 0 180050 ∧
    ((180 : Int) = Int.fdiv (180050 - 0 - 0) 1000 ∧ (0 : Int) < 180 ∧
      Int.tmod (180 : Int) 180 = 0) := by
  refine ⟨by decide, (c1_catchup_amended 1800 0 0 180050).2 180 (by decide)⟩

/-- Claim C3: on every tick of `App.tsx`, the delay passed to `setTimeout`
equals `max 1 (targetTime - now)` where
`targetTime = startTime + pausedTime + (totalElapsedSeconds + 1) * 1000`
is anchored to the original start instant; moreover with integer
millisecond clock readings `targetTime - now` always lies in `[1, 1000]`,
so the zero-or-negative branch is unreachable and the minimum delay of
1 ms is respected vacuously. -/
theorem c3_drift_compensated_delay (s p n : Int) :
    AppMain.tickDelay s p n = max 1 (AppMain.tickTargetTime s p n - n) ∧
    1 ≤ AppMain.tickTargetTime s p n - n ∧
    AppMain.tickTargetTime s p n - n ≤ 1000 := by
  have hfd : Int.fdiv (n - s - p) 1000 = (n - s - p) / 1000 :=
    Int.fdiv_eq_ediv _ (by norm_num)
  have hdm : 1000 * ((n - s - p) / 1000) + (n - s - p) % 1000 = n - s - p :=
    Int.ediv_add_emod _ _
  have hlo : 0 ≤ (n - s - p) % 1000 := Int.emod_nonneg _ (by norm_num)
  have hhi : (n - s - p) % 1000 < 1000 := Int.emod_lt_of_pos _ (by norm_num)
  simp only [AppMain.tickDelay, AppMain.tickTargetTime, hfd]
  omega

/-- Claim C4: `startTimer` in `App.tsx` rejects a non-numeric duration or a
duration outside 5 to 120 minutes with a synchronous validation result and
leaves the whole component state unchanged, and it starts the session for
every duration inside the range. -/
theorem c4_start_validation :
    (∀ (st : AppMain.AppState) (now : Int), st.customDuration = none →
      AppMain.startTimer st now = (st, AppMain.StartResult.invalidDuration)) ∧
    (∀ (st : AppMain.AppState) (d now : Int), st.customDuration = some d →
      (d < 5 ∨ 120 < d) →
      AppMain.startTimer st now = (st, AppMain.StartResult.invalidDuration)) ∧
    (∀ (st : AppMain.AppState) (d now : Int), st.customDuration = some d →
      5 ≤ d → d ≤ 120 →
      (AppMain.startTimer st now).2 = AppMain.StartResult.started) := by
  refine ⟨?_, ?_, ?_⟩
  · intro st now h
    simp [AppMain.startTimer, h]
  · intro st d now h hd
    simp [AppMain.startTimer, h, hd]
  · intro st d now h h5 h120
    have hd : ¬(d < 5 ∨ 120 < d) := by omega
    simp [AppMain.startTimer, h, hd]

/-- Claim C4 (witness): a parsed duration of 130 minutes is rejected with the
state unchanged, and the default 30-minute duration starts the session. -/
theorem c4_start_validation_witness :
    AppMain.startTimer
        { AppMain.initialState with customDuration := some 130 } 0
      = ({ AppMain.initialState with customDuration := some 130 },
          AppMain.StartResult.invalidDuration) ∧
    (AppMain.startTimer AppMain.initialState 0).2
      = AppMain.StartResult.started := by
  refine ⟨c4_start_validation.2.1 _ 130 0 rfl (Or.inr (by norm_num)),
    c4_start_validation.2.2 _ 30 0 rfl (by norm_num) (by norm_num)⟩

/-- Claim C5 (counterexample): pausing twice in a row is not the same as
pausing once in `App.tsx`.  From a running 30-minute session, `stopTimer` at
clock reading 1000 followed by `stopTimer` at 2000 stamps
`pauseStartTime = 2000`, while a single pause leaves `pauseStartTime = 1000`,
so the states differ (the wall time between the two presses will later be
billed as running time). -/
theorem c5_idempotence_counterexample :
    AppMain.stopTimer
        (AppMain.stopTimer
          { AppMain.initialState with
              isTimerActive := true, startTime := some 0 } 1000) 2000
      ≠ AppMain.stopTimer
          { AppMain.initialState with
              isTimerActive := true, startTime := some 0 } 1000 := by
  decide

/-- Claim C5 (amended): in `App.tsx`, `continueTraining` (resume) is
idempotent — a second resume is a no-op — while a double `stopTimer`
(pause) equals a single pause taken at the second call's clock reading, so
pause is idempotent only when both calls observe the same clock instant.
In the MMKV revision the situation is dual: `stopTimer` is idempotent
(the anchor is already cleared) while a double `continueTraining` equals a
single resume at the second call's clock reading. -/
theorem c5_idempotence_amended :
    (∀ (st : AppMain.AppState) (t1 t2 : Int),
      AppMain.continueTraining (AppMain.continueTraining st t1) t2
        = AppMain.continueTraining st t1) ∧
    (∀ (st : AppMain.AppState) (t1 t2 : Int),
      AppMain.stopTimer (AppMain.stopTimer st t1) t2
        = AppMain.stopTimer st t2) ∧
    (∀ (st : AppMmkv.MState) (t1 t2 : Int),
      AppMmkv.stopTimer (AppMmkv.stopTimer st t1) t2
        = AppMmkv.stopTimer st t1) ∧
    (∀ (st : AppMmkv.MState) (t1 t2 : Int),
      AppMmkv.continueTraining (AppMmkv.continueTraining st t1) t2
        = AppMmkv.continueTraining st t2) := by
  refine ⟨?_, ?_, ?_, ?_⟩
  · intro st t1 t2
    cases h : st.pauseStartTime <;> simp [AppMain.continueTraining, h]
  · intro st t1 t2
    rfl
  · intro st t1 t2
    cases h : st.startMonoMs <;> simp [AppMmkv.stopTimer, h]
  · intro st t1 t2
    rfl

/-- Claim C6: in the MMKV revision, for every start instant, every finite
alternating list of pause/resume cycles and every final pause instant, the
`accumulatedMs` observed in the resulting paused state equals exactly the
sum of the completed running-segment durations (each pause instant minus
the segment-start instant) — never more and never less; and a pause issued
while the anchor is already cleared (a stale or zombie pause) leaves
`accumulatedMs` unchanged, so nothing is double-counted. -/
theorem c6_accumulated_exact :
    (∀ (st : AppMmkv.MState) (t0 : Int) (cycles : List (Int × Int)) (tf : Int),
      (AppMmkv.pausedRun st t0 cycles tf).accumulatedMs
        = some (AppMmkv.segSum t0 cycles tf)) ∧
    (∀ (st : AppMmkv.MState) (t : Int), st.startMonoMs = none →
      (AppMmkv.stopTimer st t).accumulatedMs = st.accumulatedMs) := by
  constructor
  · intro st t0 cycles tf
    have := runCycles_accumulated cycles (AppMmkv.startTimer st t0) 0 t0 tf
      (by simp [AppMmkv.startTimer]) (by simp [AppMmkv.startTimer])
    simpa [AppMmkv.pausedRun] using this
  · intro st t h
    simp [AppMmkv.stopTimer, h]

/-- Claim C6 (witness): a concrete paused state (anchor cleared,
accumulated 500 ms) is left unchanged by a zombie pause, and a concrete
two-segment trace (run 0 to 1000, pause until 5000, run 5000 to 7000)
accumulates exactly 3000 ms. -/
theorem c6_accumulated_exact_witness :
    (AppMmkv.pausedRun
        { isTimerActive := false, isRunning := false, accumulatedMs := some 0,
          startMonoMs := none, trainingDuration := 1800, durationMs := 0 }
        0 [(1000, 5000)] 7000).accumulatedMs = some 3000 ∧
    (AppMmkv.stopTimer
        { isTimerActive := true, isRunning := false, accumulatedMs := some 500,
          startMonoMs := none, trainingDuration := 1800, durationMs := 1800000 }
        9999).accumulatedMs = some 500 := by
  refine ⟨?_, ?_⟩
  · have := c6_accumulated_exact.1
      { isTimerActive := false, isRunning := false, accumulatedMs := some 0,
        startMonoMs := none, trainingDuration := 1800, durationMs := 0 }
      0 [(1000, 5000)] 7000
    simpa [AppMmkv.segSum] using this
  · exact c6_accumulated_exact.2
      { isTimerActive := true, isRunning := false, accumulatedMs := some 500,
        startMonoMs := none, trainingDuration := 1800, durationMs := 1800000 }
      9999 rfl

/-- Claim C7 (counterexample): a session in progress does not survive a
process restart.  With the store holding `accumulatedMs = 123456` and
`startMonoMs = 789` (an in-progress session), the mount effect of the MMKV
revision calls `storage.clearAll()`, so after startup the store no longer
holds the session, the engine is not running and no accumulated value is
restored. -/
theorem c7_persistence_counterexample :
    (AppMmkv.appStartup
        { accumulatedMs := some 123456, startMonoMs := some 789 }).1
      ≠ { accumulatedMs := some 123456, startMonoMs := some 789 } ∧
    (AppMmkv.appStartup
        { accumulatedMs := some 123456, startMonoMs := some 789 }).2.accumulatedMs
      ≠ some 123456 ∧
    (AppMmkv.appStartup
        { accumulatedMs := some 123456, startMonoMs := some 789 }).2.isRunning
      ≠ true := by
  refine ⟨by decide, by decide, by decide⟩

/-- Claim C7 (amended): the MMKV revision does write `accumulatedMs` and
`startMonoMs` through the external key-value store, and an absent stored
value is treated as no session in progress (fail-soft), but on startup the
engine unconditionally clears the whole store: for every prior store
content — absent, corrupt or a valid in-progress session — startup yields
an empty store and the Idle state (timer inactive, not running, no
accumulated value, no anchor), so a session never survives a process
restart. -/
theorem c7_persistence_amended (store : AppMmkv.Store) :
    (AppMmkv.appStartup store).1
      = { accumulatedMs := none, startMonoMs := none } ∧
    (AppMmkv.appStartup store).2.isTimerActive = false ∧
    (AppMmkv.appStartup store).2.isRunning = false ∧
    (AppMmkv.appStartup store).2.accumulatedMs = none ∧
    (AppMmkv.appStartup store).2.startMonoMs = none := by
  refine ⟨rfl, rfl, rfl, rfl, rfl⟩

/-- Claim C2: when the live elapsed value `base + (now - anchor)` of the
render layer reaches `durationMs`, the frame callback clamps the stored
accumulated base (and the rendered value) to exactly `durationMs` with no
overshoot, flips the running flag off and raises the completion signal on
that frame; no later sequence of frames raises it again; and
`handleTimerComplete` in `App.tsx` cancels any still-pending scheduled tick
and dispatches exactly one completion notification. -/
theorem c2_completion_transition :
    (∀ (td : TimerDisplay.TDState) (now : Int),
      td.runningSV = true →
      td.durationSV ≤ td.baseElapsedSV + (now - td.startMonoSV) →
        (TimerDisplay.frameCallback td now).1.baseElapsedSV = td.durationSV ∧
        (TimerDisplay.frameCallback td now).1.renderElapsedSV = td.durationSV ∧
        (TimerDisplay.frameCallback td now).1.runningSV = false ∧
        (TimerDisplay.frameCallback td now).2 = true ∧
        ∀ frames : List Int,
          TimerDisplay.signalCount (TimerDisplay.frameCallback td now).1 frames
            = 0) ∧
    (∀ st : AppMain.AppState,
      (AppMain.handleTimerComplete st).1.timeoutPending = false ∧
      (AppMain.handleTimerComplete st).2 = 1) := by
  constructor
  · intro td now hrun hreach
    have hcb : TimerDisplay.frameCallback td now
        = ({ td with
              baseElapsedSV := td.durationSV
              renderElapsedSV := td.durationSV
              runningSV := false }, true) := by
      simp [TimerDisplay.frameCallback, hrun, hreach]
    refine ⟨by rw [hcb], by rw [hcb], by rw [hcb], by rw [hcb], ?_⟩
    intro frames
    exact signalCount_of_not_running _ (by rw [hcb]) frames
  · intro st
    exact ⟨rfl, rfl⟩

/-- Claim C2 (witness): a running render state 1 ms short of a 30-minute
duration, sampled 2 ms later, clamps to exactly 1800000 ms, stops, signals
completion, and three further frames emit no signal; `handleTimerComplete`
on the initial component state clears the pending tick and counts one
completion notification. -/
theorem c2_completion_transition_witness :
    (TimerDisplay.frameCallback
        { baseElapsedSV := 1799999, startMonoSV := 0, runningSV := true,
          durationSV := 1800000, renderElapsedSV := 1799999 } 2).1.baseElapsedSV
      = 1800000 ∧
    (TimerDisplay.frameCallback
        { baseElapsedSV := 1799999, startMonoSV := 0, runningSV := true,
          durationSV := 1800000, renderElapsedSV := 1799999 } 2).2 = true ∧
    TimerDisplay.signalCount
        (TimerDisplay.frameCallback
          { baseElapsedSV := 1799999, startMonoSV := 0, runningSV := true,
            durationSV := 1800000, renderElapsedSV := 1799999 } 2).1
        [18, 35, 51] = 0 ∧
    (AppMain.handleTimerComplete AppMain.initialState).1.timeoutPending
      = false ∧
    (AppMain.handleTimerComplete AppMain.initialState).2 = 1 := by
  have h := c2_completion_transition.1
    { baseElapsedSV := 1799999, startMonoSV := 0, runningSV := true,
      durationSV := 1800000, renderElapsedSV := 1799999 } 2 rfl (by norm_num)
  have h2 := c2_completion_transition.2 AppMain.initialState
  exact ⟨h.1, h.2.2.2.1, h.2.2.2.2 [18, 35, 51], h2.1, h2.2⟩

/-- Claim C8: while the render layer's running flag is false, the displayed
value is frozen at the accumulated base: the prop-sync effect for a
non-running state sets both the base and the rendered value to
`accumulatedMs`, and every sequence of frame callbacks executed while the
flag is false leaves the shared values — in particular the rendered
elapsed value — completely unchanged. -/
theorem c8_render_freeze (td : TimerDisplay.TDState) (frames : List Int)
    (m : Option Int) (a : Int) (h : td.runningSV = false) :
    TimerDisplay.framesRun td frames = td ∧
    (TimerDisplay.framesRun td frames).renderElapsedSV = td.renderElapsedSV ∧
    (TimerDisplay.syncEffect td false m a).renderElapsedSV = a ∧
    (TimerDisplay.syncEffect td false m a).baseElapsedSV = a := by
  refine ⟨framesRun_of_not_running td h frames,
    by rw [framesRun_of_not_running td h frames], ?_, ?_⟩ <;>
    cases m <;> rfl

/-- Claim C8 (witness): a paused render state with base 4200 ms is
unchanged by the frames at instants 7, 23 and 58, and the sync effect for a
paused snapshot with accumulated 4200 freezes base and render value there. -/
theorem c8_render_freeze_witness :
    TimerDisplay.framesRun
        { baseElapsedSV := 4200, startMonoSV := 0, runningSV := false,
          durationSV := 1800000, renderElapsedSV := 4200 } [7, 23, 58]
      = { baseElapsedSV := 4200, startMonoSV := 0, runningSV := false,
          durationSV := 1800000, renderElapsedSV := 4200 } ∧
    (TimerDisplay.syncEffect
        { baseElapsedSV := 4200, startMonoSV := 0, runningSV := false,
          durationSV := 1800000, renderElapsedSV := 4200 }
        false none 4200).renderElapsedSV = 4200 := by
  have h := c8_render_freeze
    { baseElapsedSV := 4200, startMonoSV := 0, runningSV := false,
      durationSV := 1800000, renderElapsedSV := 4200 } [7, 23, 58] none 4200 rfl
  exact ⟨h.1, h.2.2.1⟩

/-- Claim C9: at the first frame of a running segment whose computed live
elapsed `base + (nowMono - anchor)` reaches or exceeds the duration, the
frame callback clamps the rendered value (and base) to exactly the
duration, flips its local running flag off and raises the reached-duration
signal on that frame; on a frame that has not yet reached the duration it
only advances the rendered value and raises nothing; and once the flag is
off no sequence of later frames raises the signal again, so the signal is
one-shot per running segment.  The signal is modelled as the event value
returned by the callback because the code hands it to `scheduleOnRN`,
marshalling it onto the React Native thread instead of mutating
authoritative state from the frame context. -/
theorem c9_one_shot_completion_signal (td : TimerDisplay.TDState) (now : Int)
    (hrun : td.runningSV = true) :
    (td.durationSV ≤ td.baseElapsedSV + (now - td.startMonoSV) →
      TimerDisplay.frameCallback td now
        = ({ td with
              baseElapsedSV := td.durationSV
              renderElapsedSV := td.durationSV
              runningSV := false }, true)) ∧
    (td.baseElapsedSV + (now - td.startMonoSV) < td.durationSV →
      TimerDisplay.frameCallback td now
        = ({ td with
              renderElapsedSV := td.baseElapsedSV + (now - td.startMonoSV) },
            false)) ∧
    (∀ td2 : TimerDisplay.TDState, td2.runningSV = false →
      ∀ frames : List Int, TimerDisplay.signalCount td2 frames = 0) := by
  refine ⟨?_, ?_, ?_⟩
  · intro hreach
    simp [TimerDisplay.frameCallback, hrun, hreach]
  · intro hlt
    simp [TimerDisplay.frameCallback, hrun, not_le.mpr hlt, le_of_lt]
  · intro td2 h2 frames
    exact signalCount_of_not_running td2 h2 frames

/-- Claim C9 (witness): a running segment with base 10000 ms, anchor 0 and
duration 12000 ms does not signal at frame instant 1000 (live 11000), and
at frame instant 2500 (live 12500) it clamps to 12000, stops and signals;
afterwards the frames at 2600 and 2700 signal nothing. -/
theorem c9_one_shot_completion_signal_witness :
    TimerDisplay.frameCallback
        { baseElapsedSV := 10000, startMonoSV := 0, runningSV := true,
          durationSV := 12000, renderElapsedSV := 10000 } 1000
      = ({ baseElapsedSV := 10000, startMonoSV := 0, runningSV := true,
            durationSV := 12000, renderElapsedSV := 11000 }, false) ∧
    TimerDisplay.frameCallback
        { baseElapsedSV := 10000, startMonoSV := 0, runningSV := true,
          durationSV := 12000, renderElapsedSV := 10000 } 2500
      = ({ baseElapsedSV := 12000, startMonoSV := 0, runningSV := false,
            durationSV := 12000, renderElapsedSV := 12000 }, true) ∧
    TimerDisplay.signalCount
        { baseElapsedSV := 12000, startMonoSV := 0, runningSV := false,
          durationSV := 12000, renderElapsedSV := 12000 } [2600, 2700] = 0 := by
  have h1 := c9_one_shot_completion_signal
    { baseElapsedSV := 10000, startMonoSV := 0, runningSV := true,
      durationSV := 12000, renderElapsedSV := 10000 } 1000 rfl
  have h2 := c9_one_shot_completion_signal
    { baseElapsedSV := 10000, startMonoSV := 0, runningSV := true,
      durationSV := 12000, renderElapsedSV := 10000 } 2500 rfl
  refine ⟨?_, ?_, ?_⟩
  · simpa using h1.2.1 (by norm_num)
  · simpa using h2.1 (by norm_num)
  · exact h2.2.2
      { baseElapsedSV := 12000, startMonoSV := 0, runningSV := false,
        durationSV := 12000, renderElapsedSV := 12000 } rfl [2600, 2700]

/-- Claim C10 (counterexample): the derived `currentIntervalIndex` of
`App.tsx` is not always at least 1.  From the initial component state
(`timeRemaining = 1800`), tapping the 15-minute preset sets
`trainingDuration = 900` while leaving `timeRemaining` untouched, so
`elapsedSeconds = -900` and
`currentIntervalIndex = Math.floor(-900 / 180) + 1 = -4`. -/
theorem c10_derived_counterexample :
    AppMain.currentIntervalIndex
        (AppMain.setPresetDuration AppMain.initialState 15).trainingDuration
        (AppMain.setPresetDuration AppMain.initialState 15).timeRemaining
      = -4 ∧
    ¬(1 ≤ AppMain.currentIntervalIndex
        (AppMain.setPresetDuration AppMain.initialState 15).trainingDuration
        (AppMain.setPresetDuration AppMain.initialState 15).timeRemaining) := by
  refine ⟨by decide, by decide⟩

/-- Claim C10 (amended): whenever `0 ≤ timeRemaining ≤ trainingDuration`
(i.e. `elapsedSeconds` is non-negative, which holds in every state of an
ongoing session but can fail after switching the duration preset while a
stale `timeRemaining` is larger than the new duration),
`currentIntervalRemaining` is 0 exactly at `timeRemaining = 0`, otherwise
lies in `[1, 180]` and equals 180 on an exact 180-second multiple of
`elapsedSeconds`, and `currentIntervalIndex` is at least 1. -/
theorem c10_derived_ranges (D R : Int) (_h0 : 0 ≤ R) (hDR : R ≤ D) :
    (R = 0 → AppMain.currentIntervalRemaining D R = 0) ∧
    (R ≠ 0 → 1 ≤ AppMain.currentIntervalRemaining D R ∧
      AppMain.currentIntervalRemaining D R ≤ 180) ∧
    (R ≠ 0 → Int.tmod (D - R) 180 = 0 →
      AppMain.currentIntervalRemaining D R = 180) ∧
    1 ≤ AppMain.currentIntervalIndex D R := by
  have he : 0 ≤ D - R := by omega
  have htm : Int.tmod (D - R) 180 = (D - R) % 180 :=
    Int.tmod_eq_emod he (by norm_num)
  have hfd : Int.fdiv (D - R) 180 = (D - R) / 180 :=
    Int.fdiv_eq_ediv _ (by norm_num)
  have hmlo : 0 ≤ (D - R) % 180 := Int.emod_nonneg _ (by norm_num)
  have hmhi : (D - R) % 180 < 180 := Int.emod_lt_of_pos _ (by norm_num)
  have hdnn : 0 ≤ (D - R) / 180 := Int.ediv_nonneg he (by norm_num)
  refine ⟨?_, ?_, ?_, ?_⟩
  · intro hR
    simp [AppMain.currentIntervalRemaining, hR]
  · intro hR
    simp only [AppMain.currentIntervalRemaining, AppMain.elapsedSeconds, hR,
      if_false, htm]
    split_ifs <;> omega
  · intro hR hmul
    simp [AppMain.currentIntervalRemaining, AppMain.elapsedSeconds, hR, hmul]
  · simp only [AppMain.currentIntervalIndex, AppMain.elapsedSeconds, hfd]
    omega

/-- Claim C10 (witness): in a 30-minute session with 1700 seconds
remaining (elapsed 100 s), the per-interval countdown is 80, inside
`[1, 180]`, and the interval index is 1. -/
theorem c10_derived_ranges_witness :
    1 ≤ AppMain.currentIntervalRemaining 1800 1700 ∧
    AppMain.currentIntervalRemaining 1800 1700 ≤ 180 ∧
    1 ≤ AppMain.currentIntervalIndex 1800 1700 := by
  have h := c10_derived_ranges 1800 1700 (by norm_num) (by norm_num)
  exact ⟨(h.2.1 (by norm_num)).1, (h.2.1 (by norm_num)).2, h.2.2.2⟩
